import Mathlib

/-!
Verification of the `prime` autonomous agent (src/python/agent.py) against its
natural-language specification.  The Python source is shallowly embedded:
pure helpers become Lean functions on `String` / `List Char`; the effectful
pieces (subprocess, filesystem, database, websockets, wall-clock time) are
abstracted by an `Env` oracle, and the side-effecting calls a code path makes
are recorded as an explicit `Event` trace.  The regular-expression checks of
the source are embedded as executable scanners with the same match semantics
as Python `re` on the concrete patterns involved.
-/

set_option maxRecDepth 40000

namespace Prime

/-! ## Basic string machinery (Python `in`, `split(sep, 1)[1]`, `strip`, slices) -/

/-- `leadMatch pat cs` : does `pat` occur at the very front of `cs`? -/
def leadMatch : List Char → List Char → Bool
  | [], _ => true
  | _ :: _, [] => false
  | p :: ps, c :: cs => p = c && leadMatch ps cs

/-- Occurrence of `pat` anywhere in `text` (Python `pat in text`). -/
def charsContain (pat : List Char) : List Char → Bool
  | [] => leadMatch pat []
  | c :: rest => leadMatch pat (c :: rest) || charsContain pat rest

/-- Python `pat in s`. -/
def strContains (s pat : String) : Bool :=
  charsContain pat.data s.data

/-- Python `\s` (ASCII): space, tab, newline, carriage return, form feed,
vertical tab; also the character set of Python `str.strip()`. -/
def isPySpace (c : Char) : Bool :=
  c = ' ' || c = '\t' || c = '\n' || c = '\r' || c = '\x0b' || c = '\x0c'

/-- Python `s.strip()`. -/
def pyStrip (s : String) : String :=
  String.mk ((((s.data.dropWhile isPySpace).reverse).dropWhile isPySpace).reverse)

/-- Python `s.upper()` (ASCII case mapping, which covers every marker the
agent compares against). -/
def pyUpper (s : String) : String :=
  String.mk (s.data.map Char.toUpper)

/-- Fueled worker for `pySplit`; `acc` is the current segment, reversed. -/
def pySplitAux (sep : List Char) : Nat → List Char → List Char → List (List Char)
  | _, acc, [] => [acc.reverse]
  | 0, acc, rest => [acc.reverse ++ rest]
  | fuel + 1, acc, c :: cs =>
    if leadMatch sep (c :: cs) then
      acc.reverse :: pySplitAux sep fuel [] ((c :: cs).drop sep.length)
    else pySplitAux sep fuel (c :: acc) cs

/-- Python `s.split(sep)` for a nonempty separator. -/
def pySplit (s sep : String) : List String :=
  (pySplitAux sep.data s.data.length [] s.data).map String.mk

/-- Everything after the first occurrence of `pat` (Python `s.split(pat, 1)[1]`);
`none` when `pat` does not occur (Python would raise `IndexError`). -/
def splitAfterChars (pat : List Char) : List Char → Option (List Char)
  | [] => if leadMatch pat [] then some [] else none
  | c :: rest =>
    if leadMatch pat (c :: rest) then some ((c :: rest).drop pat.length)
    else splitAfterChars pat rest

/-- String version of `splitAfterChars`. -/
def splitAfterFirst (s pat : String) : Option String :=
  (splitAfterChars pat.data s.data).map String.mk

/-- Python `s.strip(chars)` restricted to a concrete character set. -/
def stripCharSet (s : String) (set : List Char) : String :=
  String.mk ((((s.data.dropWhile (fun c => set.contains c)).reverse).dropWhile
    (fun c => set.contains c)).reverse)

/-- The strip set `'\'" \t'` used throughout `execute_functions`. -/
def stripArgs (s : String) : String :=
  stripCharSet s ['\'', '"', ' ', '\t']

/-- Python slice `s[:n]`. -/
def pySliceFirst (s : String) (n : Nat) : String :=
  String.mk (s.data.take n)

/-- Python slice `s[-n:]` (for `n ≤ len s`, the only way it is used). -/
def pySliceLast (s : String) (n : Nat) : String :=
  String.mk (s.data.drop (s.data.length - n))

/-- Digit-string value; `none` unless nonempty and all decimal digits. -/
def digitsToNat : List Char → Option Nat
  | [] => none
  | ds =>
    if ds.all Char.isDigit then
      some (ds.foldl (fun a c => a * 10 + (c.toNat - 48)) 0)
    else none

/-- Python `int(s)` on a decimal literal: surrounding whitespace stripped, an
optional sign, then digits.  `none` models `ValueError`. -/
def pythonInt (s : String) : Option Int :=
  match (pyStrip s).data with
  | '+' :: ds => (digitsToNat ds).map (fun n => (n : Int))
  | '-' :: ds => (digitsToNat ds).map (fun n => -(n : Int))
  | ds => (digitsToNat ds).map (fun n => (n : Int))

/-! ## A small pattern language covering the source's `re` patterns

Each denylist regex of `validate_code` is a simple sequence of literals,
whitespace repetitions, `.*` gaps, character classes and one final
alternation, so we embed them as `Atom` sequences with exists-semantics
(`reSearch` is true iff Python `re.search` finds a match). -/

/-- Python `\w` (ASCII): alphanumeric or underscore. -/
def isWordChar (c : Char) : Bool :=
  c.isAlphanum || c = '_'

/-- One element of an embedded regular expression. -/
inductive Atom
  /-- a literal string -/
  | lit (s : String)
  /-- `\s+` -/
  | wsPlus
  /-- `\s*` -/
  | wsStar
  /-- `.*` without DOTALL: any run of non-newline characters -/
  | anyStar
  /-- a character class such as `['"]` -/
  | cls (cs : List Char)
  /-- a final alternation of literals such as `(sd|hd|nvme|xvd)` -/
  | endAlts (alts : List String)
deriving DecidableEq

/-- Fueled worker for `matchAtoms`: every recursive call strictly decreases
`as.length + cs.length`, so fuel `as.length + cs.length + 1` is always
sufficient and the `0` case is unreachable from `matchAtoms`. -/
def matchAtomsF : Nat → List Atom → List Char → Bool
  | 0, _, _ => false
  | _ + 1, [], _ => true
  | fuel + 1, .lit s :: rest, cs => leadMatch s.data cs && matchAtomsF fuel rest (cs.drop s.length)
  | fuel + 1, .wsPlus :: rest, cs =>
    match cs with
    | [] => false
    | c :: cs' => isPySpace c && matchAtomsF fuel (.wsStar :: rest) cs'
  | fuel + 1, .wsStar :: rest, cs =>
    matchAtomsF fuel rest cs ||
      match cs with
      | [] => false
      | c :: cs' => isPySpace c && matchAtomsF fuel (.wsStar :: rest) cs'
  | fuel + 1, .anyStar :: rest, cs =>
    matchAtomsF fuel rest cs ||
      match cs with
      | [] => false
      | c :: cs' => c ≠ '\n' && matchAtomsF fuel (.anyStar :: rest) cs'
  | fuel + 1, .cls set :: rest, cs =>
    match cs with
    | [] => false
    | c :: cs' => set.contains c && matchAtomsF fuel rest cs'
  | _ + 1, .endAlts alts :: _, cs => alts.any (fun a => leadMatch a.data cs)

/-- Does the atom sequence match a prefix of `cs` (exists-semantics)? -/
def matchAtoms (as : List Atom) (cs : List Char) : Bool :=
  matchAtomsF (as.length + cs.length + 1) as cs

/-- Python `re.search` (boolean): the atom sequence matches starting at some
position of the text. -/
def reSearch (p : List Atom) : List Char → Bool
  | [] => matchAtoms p []
  | c :: cs => matchAtoms p (c :: cs) || reSearch p cs

/-- Python `re.search(rf"\b{w}\b", text)` for a purely alphabetic word `w`:
an occurrence of `w` not adjacent to word characters.  `prev` is the
character immediately before the current position. -/
def wordSearchAux (w : List Char) (prev : Option Char) : List Char → Bool
  | [] => false
  | c :: cs =>
    (leadMatch w (c :: cs) &&
      (match prev with | none => true | some p => !(isWordChar p)) &&
      (match (c :: cs).drop w.length with
       | [] => true
       | a :: _ => !(isWordChar a))) ||
    wordSearchAux w (some c) cs

/-- Word-bounded occurrence of `w` in `s`. -/
def wordBounded (w : String) (s : String) : Bool :=
  wordSearchAux w.data none s.data

/-! ## Safety Validator (`validate_code`, agent.py lines 604-669) -/

/-- `dangerous_patterns`: the shared denylist, in source order, embedding the
regexes
`rm\s+-rf\s+/`, `mkfs`, `dd\s+if=.*\s+of=/dev/(sd|hd|nvme|xvd)`,
`:\(\)\{\s+:\|\:\&\s+\};:`, `>>/etc/passwd`, `chmod\s+777\s+/`,
`wget.*\|\s*bash`, `curl.*\|\s*bash`. -/
def dangerous_patterns : List (List Atom × String) :=
  [([.lit "rm", .wsPlus, .lit "-rf", .wsPlus, .lit "/"],
      "Dangerous recursive deletion of root directory"),
   ([.lit "mkfs"], "Filesystem formatting command detected"),
   ([.lit "dd", .wsPlus, .lit "if=", .anyStar, .wsPlus, .lit "of=/dev/",
       .endAlts ["sd", "hd", "nvme", "xvd"]],
      "Disk overwrite operation detected"),
   ([.lit ":()\x7b", .wsPlus, .lit ":|:&", .wsPlus, .lit "\x7d;:"], "Fork bomb detected"),
   ([.lit ">>/etc/passwd"], "Modifying system password file"),
   ([.lit "chmod", .wsPlus, .lit "777", .wsPlus, .lit "/"],
      "Setting dangerous permissions on system directories"),
   ([.lit "wget", .anyStar, .lit "|", .wsStar, .lit "bash"],
      "Piping web content directly to bash"),
   ([.lit "curl", .anyStar, .lit "|", .wsStar, .lit "bash"],
      "Piping web content directly to bash")]

/-- `py_dangerous`: the Python-specific denylist, embedding
`__import__\(['\"]os['\"].*system`, `exec\s*\(.*input`, `eval\s*\(.*input`. -/
def py_dangerous : List (List Atom × String) :=
  [([.lit "__import__(", .cls ['\'', '"'], .lit "os", .cls ['\'', '"'],
       .anyStar, .lit "system"],
      "Indirect os.system call"),
   ([.lit "exec", .wsStar, .lit "(", .anyStar, .lit "input"], "Executing user input"),
   ([.lit "eval", .wsStar, .lit "(", .anyStar, .lit "input"], "Evaluating user input")]

/-- `dangerous_imports`: modules whose import is logged (not rejected). -/
def dangerous_imports : List (String × String) :=
  [("subprocess", "subprocess module can execute shell commands")]

/-- `rf"import\s+{module}|from\s+{module}\s+import"`. -/
def importMention (module : String) (code : String) : Bool :=
  reSearch [.lit "import", .wsPlus, .lit module] code.data ||
    reSearch [.lit "from", .wsPlus, .lit module, .wsPlus, .lit "import"] code.data

/-- `dangerous_utils`: shell utilities whose word-bounded occurrence is
logged (not rejected). -/
def dangerous_utils : List String :=
  ["shred", "fdisk", "mkfs", "sfdisk"]

/-- Result of `validate_code`: the returned `(is_valid, reason)` tuple, plus
the warning `log(...)` calls the source makes on the accepting paths
(embedded here as data since the log is the only observable effect). -/
structure VResult where
  ok : Bool
  reason : String
  warnings : List String
deriving DecidableEq

/-- `validate_code(code, kind)` (agent.py lines 604-669).  Empty code is
rejected first; then the shared denylist (first match wins); then for `PY`
the Python-specific denylist, and the import warnings; for `SH` the
destructive-utility warnings. -/
def validate_code (code : String) (kind : String) : VResult :=
  if pyStrip code = "" then ⟨false, "Empty code block", []⟩
  else
    match dangerous_patterns.find? (fun p => reSearch p.1 code.data) with
    | some pr => ⟨false, pr.2, []⟩
    | none =>
      if kind = "PY" then
        match py_dangerous.find? (fun p => reSearch p.1 code.data) with
        | some pr => ⟨false, pr.2, []⟩
        | none =>
          ⟨true, "Code passed validation",
            (dangerous_imports.filter (fun m => importMention m.1 code)).map
              (fun m =>
                "Warning: Code contains potentially security-sensitive module: " ++ m.1)⟩
      else if kind = "SH" then
        ⟨true, "Code passed validation",
          (dangerous_utils.filter (fun u => wordBounded u code)).map
            (fun u =>
              "Warning: Shell code contains potentially destructive utility: " ++ u)⟩
      else ⟨true, "Code passed validation", []⟩

/-! ## `clean_code` (agent.py lines 486-492) -/

/-- `re.sub(r'`\s*$', '', code)` (no MULTILINE): remove the leftmost backtick
that is followed only by whitespace, together with everything after it. -/
def dropTrailingBacktick : List Char → List Char
  | [] => []
  | c :: rest =>
    if c = '`' && rest.all isPySpace then []
    else c :: dropTrailingBacktick rest

/-- `clean_code(code)`: strip a trailing backtick fragment, blank out every
line that starts with a backtick (`re.sub(r'^`.*$', '', code, re.MULTILINE)`),
then `strip()`. -/
def clean_code (code : String) : String :=
  let cs1 := String.mk (dropTrailingBacktick code.data)
  let lines := (pySplit cs1 "\n").map (fun l => if leadMatch ['`'] l.data then "" else l)
  pyStrip (String.intercalate "\n" lines)

/-! ## `textwrap.dedent` (used by `extract_code_blocks`) -/

/-- `[ \t]`, the whitespace `textwrap.dedent` considers for margins. -/
def isTabOrSpace (c : Char) : Bool :=
  c = ' ' || c = '\t'

/-- Longest common prefix of two character lists. -/
def commonPre : List Char → List Char → List Char
  | x :: xs, y :: ys => if x = y then x :: commonPre xs ys else []
  | _, _ => []

/-- `textwrap.dedent(text)`: whitespace-only lines are emptied; the longest
common `[ \t]` prefix of the remaining nonempty lines is removed from every
line that starts with it. -/
def dedent (text : String) : String :=
  let lines := (pySplit text "\n").map
    (fun l => if l ≠ "" && l.data.all isTabOrSpace then "" else l)
  let indents := (lines.filter (fun l => l ≠ "")).map
    (fun l => l.data.takeWhile isTabOrSpace)
  let margin := match indents with
    | [] => []
    | i :: rest => rest.foldl commonPre i
  if margin = [] then String.intercalate "\n" lines
  else
    String.intercalate "\n" (lines.map
      (fun l => if leadMatch margin l.data then String.mk (l.data.drop margin.length) else l))

/-! ## `extract_code_blocks` (agent.py lines 671-701)

The three `re.search` patterns are embedded as deterministic scanners.  For
these patterns Python's backtracking collapses to:
* `\s*` before `#` consumes the maximal whitespace run (no shorter run can be
  followed by `#`);
* `\s*` before `\n` stops just before the **last** newline of the maximal
  whitespace run (greedy, then backtracking until a `\n` is next);
* the lazy `(.*?)` before ` ``` ` captures up to the **first** closing fence;
* the optional language tag backtracks to the empty alternative when the
  rest of the pattern fails after it. -/

/-- First occurrence split: `some (before, after)` where `before` is the text
before the first occurrence of `pat` and `after` the text following it. -/
def splitFirst (pat : List Char) : List Char → Option (List Char × List Char)
  | [] => if leadMatch pat [] then some ([], []) else none
  | c :: rest =>
    if leadMatch pat (c :: rest) then some ([], (c :: rest).drop pat.length)
    else (splitFirst pat rest).map (fun p => (c :: p.1, p.2))

/-- Index of the last `'\n'` in a list, if any. -/
def lastNlIdx : List Char → Option Nat
  | [] => none
  | c :: rest =>
    match lastNlIdx rest with
    | some i => some (i + 1)
    | none => if c = '\n' then some 0 else none

/-- Matches `\s*\n` with Python's greedy backtracking: the suffix after the
last newline of the leading whitespace run, or `none` if that run has no
newline. -/
def afterLastNlInRun (cs : List Char) : Option (List Char) :=
  match lastNlIdx (cs.takeWhile isPySpace) with
  | none => none
  | some i => some (cs.drop (i + 1))

/-- The `\s*#(SH|PY)\s*\n(.*?)``` ` tail shared by the two fenced patterns:
returns the kind and the lazily captured content. -/
def blockTail (cs : List Char) : Option (String × String) :=
  match cs.dropWhile isPySpace with
  | '#' :: cs2 =>
    match
      (if leadMatch "SH".data cs2 then some ("SH", cs2.drop 2)
       else if leadMatch "PY".data cs2 then some ("PY", cs2.drop 2)
       else none) with
    | none => none
    | some kc =>
      match afterLastNlInRun kc.2 with
      | none => none
      | some cs4 =>
        match splitFirst "```".data cs4 with
        | none => none
        | some p => some (kc.1, String.mk p.1)
  | _ => none

/-- One attempt of pattern 1 at the current position:
` ```(?:python|bash|sh)?\s*#(SH|PY)\s*\n(.*?)``` `. -/
def tryBlock1At (cs : List Char) : Option (String × String) :=
  if leadMatch "```".data cs then
    let afterTicks := cs.drop 3
    let tagged : Option (List Char) :=
      if leadMatch "python".data afterTicks then some (afterTicks.drop 6)
      else if leadMatch "bash".data afterTicks then some (afterTicks.drop 4)
      else if leadMatch "sh".data afterTicks then some (afterTicks.drop 2)
      else none
    match tagged with
    | some cs' => (blockTail cs').orElse (fun _ => blockTail afterTicks)
    | none => blockTail afterTicks
  else none

/-- `re.search` for pattern 1: leftmost position where it matches. -/
def searchBlock1 : List Char → Option (String × String)
  | [] => tryBlock1At []
  | c :: cs => (tryBlock1At (c :: cs)).orElse (fun _ => searchBlock1 cs)

/-- One attempt of pattern 2 (` ```\s*#(SH|PY)\s*\n(.*?)``` `). -/
def tryBlock2At (cs : List Char) : Option (String × String) :=
  if leadMatch "```".data cs then blockTail (cs.drop 3) else none

/-- `re.search` for pattern 2. -/
def searchBlock2 : List Char → Option (String × String)
  | [] => tryBlock2At []
  | c :: cs => (tryBlock2At (c :: cs)).orElse (fun _ => searchBlock2 cs)

/-- One attempt of pattern 3 (`#(SH|PY)\s*\n(.*)` with DOTALL: the rest of
the text after the chosen newline is the capture). -/
def tryBlock3At (cs : List Char) : Option (String × String) :=
  match cs with
  | '#' :: cs2 =>
    match
      (if leadMatch "SH".data cs2 then some ("SH", cs2.drop 2)
       else if leadMatch "PY".data cs2 then some ("PY", cs2.drop 2)
       else none) with
    | none => none
    | some kc =>
      match afterLastNlInRun kc.2 with
      | none => none
      | some cs4 => some (kc.1, String.mk cs4)
  | _ => none

/-- `re.search` for pattern 3. -/
def searchBlock3 : List Char → Option (String × String)
  | [] => tryBlock3At []
  | c :: cs => (tryBlock3At (c :: cs)).orElse (fun _ => searchBlock3 cs)

/-- `extract_code_blocks(txt)`: the three patterns in source order, the
captured payload dedented; `none` models the `(None, None)` result. -/
def extract_code_blocks (txt : String) : Option (String × String) :=
  match searchBlock1 txt.data with
  | some kc => some (kc.1, dedent kc.2)
  | none =>
    match searchBlock2 txt.data with
    | some kc => some (kc.1, dedent kc.2)
    | none =>
      match searchBlock3 txt.data with
      | some kc => some (kc.1, dedent kc.2)
      | none => none

/-! ## `extract_functions` (agent.py lines 707-728)

`re.findall(r"#CALL\s+(\w+)\s*\((.*?)\)", txt, re.DOTALL)`: scans left to
right, continuing after each non-overlapping match; the lazy argument capture
stops at the first `)`. -/

/-- One match attempt of the `#CALL` pattern at the current position:
`some (name, args, remainder)` on success. -/
def tryCallAt (cs : List Char) : Option (String × String × List Char) :=
  if leadMatch "#CALL".data cs then
    let cs1 := cs.drop 5
    let ws := cs1.takeWhile isPySpace
    if ws = [] then none
    else
      let cs2 := cs1.drop ws.length
      let name := cs2.takeWhile isWordChar
      if name = [] then none
      else
        match (cs2.drop name.length).dropWhile isPySpace with
        | '(' :: cs3 =>
          match splitFirst [')'] cs3 with
          | none => none
          | some p => some (String.mk name, String.mk p.1, p.2)
        | _ => none
  else none

/-- Fueled findall loop (the fuel is the text length, which bounds the number
of scanning steps since every step consumes at least one character). -/
def scanCallsAux : Nat → List Char → List (String × String)
  | 0, _ => []
  | _ + 1, [] => []
  | fuel + 1, c :: cs =>
    match tryCallAt (c :: cs) with
    | some r => (r.1, r.2.1) :: scanCallsAux fuel r.2.2
    | none => scanCallsAux fuel cs

/-- `extract_functions(txt)`: every `#CALL name(args)` match in order, with
`args.strip()` applied as in the source. -/
def extract_functions (txt : String) : List (String × String) :=
  (scanCallsAux txt.data.length txt.data).map (fun p => (p.1, pyStrip p.2))

/-! ## Execution Adapter (`run_sh` / `run_py`, agent.py lines 494-602)

The subprocess layer is abstracted by an oracle: `ShOutcome` is what
`subprocess.run` (or the surrounding `try`) produced for a given command. -/

/-- Outcome of one subprocess invocation. -/
inductive ShOutcome
  /-- the process finished with the given streams and exit status -/
  | finished (stdout stderr : String) (returncode : Int)
  /-- `subprocess.TimeoutExpired` -/
  | timedOut
  /-- any other exception `e`, carried as `str(e)` -/
  | raised (msg : String)
deriving DecidableEq

/-- A value of the environment-context dictionary: a string (also used for
booleans via their `str()` form) or a nested string dictionary. -/
inductive PyVal
  | s (v : String)
  | d (entries : List (String × String))
deriving DecidableEq

/-- Python `str()` of a `PyVal` as interpolated into f-strings. -/
def pvStr : PyVal → String
  | .s v => v
  | .d es =>
    "\x7b" ++ String.intercalate ", " (es.map (fun e => "'" ++ e.1 ++ "': '" ++ e.2 ++ "'")) ++ "\x7d"

/-- Oracle for every effect the agent performs.  `shExec` is keyed by the
*cleaned* command and the timeout; `pyExec` by the code content written to
the uniquely named temporary file (writing the file and invoking
`python <file>` is equivalent to running that content).  `ioError` models an
I/O failure raised by the backup/write block of a self-update. -/
structure Env where
  readFileF : String → String
  shExec : String → Nat → ShOutcome
  pyExec : String → ShOutcome
  taskInfo : String → Option String
  envContext : List (String × PyVal)
  agentSourceExists : Bool
  backupPath : String
  ioError : Option String

/-- Merging of captured streams exactly as in `run_sh`:
`output = stdout; if stderr: output = output + "\n" + stderr if output else stderr`. -/
def mergeStreams (stdout stderr : String) : String :=
  if stderr ≠ "" then (if stdout ≠ "" then stdout ++ "\n" ++ stderr else stderr)
  else stdout

/-- Output shaping of `run_sh`: merged streams, a `[Exit code: n]` prefix on
nonzero exit, a distinct timeout error, and `ERROR: {e}` for any other
exception — never a raised exception. -/
def shapeOutcome (oc : ShOutcome) (timeout : Nat) : String :=
  match oc with
  | .finished stdout stderr rc =>
    let output := mergeStreams stdout stderr
    if rc ≠ 0 then "[Exit code: " ++ toString rc ++ "]\n" ++ output
    else output
  | .timedOut => "ERROR: Command timed out after " ++ toString timeout ++ " seconds"
  | .raised e => "ERROR: " ++ e

/-- `run_sh(command, timeout)` (agent.py lines 494-543). -/
def run_sh (env : Env) (command : String) (timeout : Nat) : String :=
  shapeOutcome (env.shExec (clean_code command) timeout) timeout

/-- `re.sub(r'```.*?```', '', s, flags=re.DOTALL)`: helper finding the text
after the next closing fence. -/
def findCloseTicks : List Char → Option (List Char)
  | [] => none
  | c :: cs =>
    if leadMatch "```".data (c :: cs) then some ((c :: cs).drop 3)
    else findCloseTicks cs

/-- Fueled left-to-right removal of lazily matched ` ```...``` ` spans. -/
def subTripleAux : Nat → List Char → List Char
  | 0, cs => cs
  | _ + 1, [] => []
  | fuel + 1, c :: cs =>
    if leadMatch "```".data (c :: cs) then
      match findCloseTicks ((c :: cs).drop 3) with
      | some rest => subTripleAux fuel rest
      | none => c :: subTripleAux fuel cs
    else c :: subTripleAux fuel cs

/-- `re.sub(r'```.*?```', '', s, flags=re.DOTALL)`. -/
def subTripleSpans (s : String) : String :=
  String.mk (subTripleAux s.data.length s.data)

/-- Next backtick with no interposed newline (the lazy `` `.*?` `` without
DOTALL): the text after it, or `none`. -/
def findCloseTick : List Char → Option (List Char)
  | [] => none
  | '`' :: cs => some cs
  | '\n' :: _ => none
  | _ :: cs => findCloseTick cs

/-- Fueled left-to-right removal of lazily matched `` `...` `` spans. -/
def subSingleAux : Nat → List Char → List Char
  | 0, cs => cs
  | _ + 1, [] => []
  | fuel + 1, c :: cs =>
    if c = '`' then
      match findCloseTick cs with
      | some rest => subSingleAux fuel rest
      | none => c :: subSingleAux fuel cs
    else c :: subSingleAux fuel cs

/-- `re.sub(r'`.*?`', '', s)`. -/
def subSingleSpans (s : String) : String :=
  String.mk (subSingleAux s.data.length s.data)

/-- `run_py(code)` (agent.py lines 545-602): clean the code, materialize and
run it (here: `env.pyExec` on the cleaned content, shaped exactly as
`run_sh(f"python {tmp_file}")` would shape it, with the default 300 second
timeout), and on a backtick-related `SyntaxError` retry once with the
fenced/backticked spans removed. -/
def run_py (env : Env) (code : String) : String :=
  let clean_code_str := clean_code code
  let result := shapeOutcome (env.pyExec clean_code_str) 300
  if strContains result "SyntaxError: invalid syntax" &&
      (strContains result "```" || strContains result "`") then
    let cleaner_code := subSingleSpans (subTripleSpans clean_code_str)
    shapeOutcome (env.pyExec cleaner_code) 300
  else result

/-! ## Function Dispatcher (`execute_functions`, agent.py lines 730-877) -/

/-- `shlex.quote(s)`. -/
def shlexQuote (s : String) : String :=
  if s = "" then "''"
  else if s.data.all (fun c => c.isAlphanum || "_@%+=:,./-".data.contains c) then s
  else "'" ++ String.intercalate "'\"'\"'" (pySplit s "'") ++ "'"

/-- One iteration of the dispatch loop of `execute_functions`: the result
string appended for this call, and `some wait_time` exactly when the branch
performs the early `return (results, wait_time)` (a `wait` whose argument
parses).  The `save_task_log` calls inside the loop are audit-only and not
modelled here. -/
def dispatch_call (env : Env) (task_id : String) (func_name args : String) :
    String × Option Int :=
  if func_name = "read_file" then
    let cleaned_args := stripArgs args
    let content := env.readFileF cleaned_args
    let body :=
      if content.length > 4000 then
        pySliceFirst content 2000 ++
          "\n...[content truncated, showing 4000/" ++ toString content.length ++ "]...\n" ++
          pySliceLast content 2000
      else content
    ("#FILE_CONTENT from " ++ cleaned_args ++ "\n" ++ body ++ "\n#END_FILE_CONTENT", none)
  else if func_name = "list_directory" then
    let path := if stripArgs args = "" then "." else stripArgs args
    let dir_content := run_sh env ("ls -la " ++ shlexQuote path ++ " 2>&1") 300
    ("Directory listing for " ++ path ++ ":\n" ++ dir_content, none)
  else if func_name = "check_status" then
    let target_task := if stripArgs args = "" then task_id else stripArgs args
    match env.taskInfo target_task with
    | some st => ("Task " ++ target_task ++ " status: " ++ st, none)
    | none => ("Task " ++ target_task ++ " not found", none)
  else if func_name = "wait" then
    match pythonInt (stripArgs args) with
    | some wait_seconds =>
      let wait_time := min wait_seconds 60
      ("Waiting for " ++ toString wait_time ++ " seconds...", some wait_time)
    | none =>
      ("Invalid wait duration: " ++ args ++ ". Please provide a number of seconds.", none)
  else if func_name = "check_command" then
    let cmd := stripArgs args
    if cmd = "" then ("No command specified for check_command", none)
    else
      let cmd_exists := (run_sh env
        ("command -v " ++ shlexQuote cmd ++
          " >/dev/null 2>&1 && echo 'available' || echo 'not available'") 300) |> pyStrip
      ("Command '" ++ cmd ++ "' is " ++ cmd_exists, none)
  else if func_name = "get_environment" then
    let env_str := "Environment Information:\n" ++
      String.join (env.envContext.map (fun kv =>
        match kv.2 with
        | .d entries =>
          "- " ++ kv.1 ++ ":\n" ++
            String.join (entries.map (fun e => "  - " ++ e.1 ++ ": " ++ e.2 ++ "\n"))
        | .s v => "- " ++ kv.1 ++ ": " ++ v ++ "\n"))
    (env_str, none)
  else
    ("Unknown function: " ++ func_name, none)

/-- `execute_functions(functions, task_id)` (agent.py lines 730-877): the
accumulating loop with the early return on a successfully parsed `wait`. -/
def execute_functions (env : Env) : List (String × String) → String → List String × Int
  | [], _ => ([], 0)
  | f :: rest, task_id =>
    match dispatch_call env task_id f.1 f.2 with
    | (r, some wait_time) => ([r], wait_time)
    | (r, none) =>
      let t := execute_functions env rest task_id
      (r :: t.1, t.2)

/-! ## Context Window Manager (message assembly of `ollama_chat`,
agent.py lines 901-948) -/

/-- `MAX_CONTEXT = 4000` (agent.py line 45). -/
def MAX_CONTEXT : Nat := 4000

/-- A role-tagged chat message. -/
structure Msg where
  role : String
  content : String
deriving DecidableEq

/-- The system message content (agent.py lines 905-910, verbatim including
the surrounding indentation of the triple-quoted literal). -/
def system_content : String :=
  "\n    You are an autonomous, root-capable agent running on a Linux system. \n    Return exactly one code block starting with #SH or #PY, or #DONE when finished, \n    or #SELFUPDATE followed by python code to replace agent.py.\n    You can also use #CALL function_name(args) to call special functions.\n    "

/-- The synthetic truncation notice inserted at index 0 of the history
(agent.py lines 930-933). -/
def truncationNotice : Msg :=
  ⟨"system", "Note: Earlier conversation history was truncated due to length."⟩

/-- The history eviction loop
`while history_tokens > MAX_CONTEXT * 0.8 and history_messages: ...`
(agent.py lines 925-927).  `t` is the running token estimate; the comparison
against `MAX_CONTEXT * 0.8 = 3200.0` is exact for integers as `t > 3200`. -/
def truncateHistory (t : Int) : List Msg → List Msg
  | [] => []
  | m :: rest =>
    if t > 3200 then truncateHistory (t - ((m.content.length / 4 : Nat) : Int)) rest
    else m :: rest

/-- The history estimate `sum(len(msg["content"]) for msg in history) // 4`
(agent.py line 918): the lengths are summed first, then divided. -/
def historyEstimate (history : List Msg) : Int :=
  (((history.map (fun m => m.content.length)).sum / 4 : Nat) : Int)

/-- The message list `ollama_chat` sends (agent.py lines 901-948): system
message, then the (possibly truncated, notice-prefixed) history, then the
new prompt — which is always appended unmodified. -/
def ollama_chat_messages (history : List Msg) (prompt : String) : List Msg :=
  let history_tokens := historyEstimate history
  let history_messages :=
    if history_tokens > (MAX_CONTEXT : Int) then
      truncationNotice :: truncateHistory history_tokens history
    else history
  ⟨"system", system_content⟩ :: history_messages ++ [⟨"user", prompt⟩]

/-! ## Task State Machine (`process_response`, agent.py lines 1041-1371, and
`cancel_task`, lines 1631-1654)

`process_response` is embedded as a pure step function on the task's
in-memory record, returning the updated record fields, the ordered trace of
side-effecting calls it makes, and how control continues. -/

/-- The in-memory `active_tasks[task_id]` fields `process_response` touches. -/
structure TaskState where
  status : String
  output : String
  step : Nat
deriving DecidableEq

/-- One side-effecting call made by a step, in source order.  `log(...)`
terminal output and the `save_task_log` calls inside helper functions are
not traced. -/
inductive Event
  | saveTaskLog (log_type content : String)
  | updateTaskStatus (status : String)
  | notify (kind status : String)
  | saveHistory (goal status output : String)
  | writeBackup (path : String)
  | writeAgentSource (code : String)
  | runPy (code : String)
  | runShell (code : String)
  | execvRestart
deriving DecidableEq

/-- How the step hands control back to the loop. -/
inductive Control
  /-- the task is finished (`#DONE` branch returns) -/
  | done
  /-- accepted self-update: `os.execv` replaces the process -/
  | restarting
  /-- `iterate_next_step(goal, task_id, prompt)` re-queries the model -/
  | continueWith (prompt : String)
  /-- a `wait` suspends the task; `wait_and_continue` resumes it later -/
  | suspend (seconds : Int)
  /-- an uncaught Python exception kills the worker thread -/
  | raised
deriving DecidableEq

/-- The result of one `process_response` step. -/
structure StepResult where
  status : String
  output : String
  step : Nat
  events : List Event
  control : Control
deriving DecidableEq

/-- The `Available functions:` block shared verbatim by the follow-up
prompts of `process_response`. -/
def FUNCTIONS_BLOCK : String :=
  "Available functions:\n- #CALL read_file(path) - Read file content\n- #CALL list_directory(path) - List directory contents\n- #CALL wait(seconds) - Wait before continuing\n- #CALL check_command(cmd) - Check if a command is available\n- #CALL get_environment() - Get complete environment information"

/-- Prompt after a rejected self-update (agent.py lines 1103-1107). -/
def suRejPrompt (reason goal : String) : String :=
  "Self-update was rejected: " ++ reason ++
    "\nPlease continue with the goal using standard code blocks instead of self-update.\n\nGoal: " ++
    goal ++ "\n"

/-- Prompt after a failed self-update (agent.py lines 1163-1167). -/
def suFailPrompt (e goal : String) : String :=
  "Self-update failed: " ++ e ++
    "\nPlease continue with the goal using standard code blocks instead of self-update.\n\nGoal: " ++
    goal ++ "\n"

/-- Prompt carrying function results (agent.py lines 1204-1217). -/
def funcPrompt (func_results : List String) (goal : String) : String :=
  "Function call results:\n" ++ String.intercalate "\n" func_results ++
    "\n\nContinue with the goal: " ++ goal ++ "\n\n" ++ FUNCTIONS_BLOCK ++
    "\n\nUse #DONE when the goal is complete.\n"

/-- Prompt when no action was recognized (agent.py lines 1233-1245). -/
def noCodePrompt (goal : String) : String :=
  "I couldn't find any valid code blocks or function calls in your response.\n\nPlease provide a valid code block starting with #SH or #PY, or use #CALL to call a function.\n\nGoal: " ++
    goal ++ "\n\n" ++ FUNCTIONS_BLOCK ++ "\n"

/-- Prompt after failed validation (agent.py lines 1260-1271). -/
def valFailPrompt (reason goal : String) : String :=
  "Code validation failed: " ++ reason ++
    "\nPlease revise your approach and provide a safer solution.\n\nGoal: " ++ goal ++
    "\n\n" ++ FUNCTIONS_BLOCK ++ "\n"

/-- The environment summary lines of the post-execution prompt
(agent.py lines 1317-1341). -/
def envSummary (ctx : List (String × PyVal)) : List String :=
  let lookup := fun (k : String) => (ctx.find? (fun p => p.1 = k)).map (fun p => p.2)
  let base := ["user", "is_root", "os_info", "working_dir", "docker_status"].filterMap
    (fun k => (lookup k).map (fun v => "- " ++ k ++ ": " ++ pvStr v))
  let cmdPart :=
    match lookup "available_commands" with
    | some (.d cmds) =>
      let avail := (cmds.filter (fun p => p.2 = "available")).map (fun p => p.1)
      let unavail := (cmds.filter (fun p => p.2 ≠ "available")).map (fun p => p.1)
      (if avail ≠ [] then ["- Available commands: " ++ String.intercalate ", " avail] else []) ++
        (if unavail ≠ [] then ["- Unavailable commands: " ++ String.intercalate ", " unavail] else [])
    | _ => []
  let dockerPart :=
    if lookup "docker_status" = some (.s "installed") then
      (match lookup "docker_running" with
       | some v => ["- Docker running: " ++ pvStr v]
       | none => []) ++
      (match lookup "docker_version" with
       | some v => ["- Docker version: " ++ pvStr v]
       | none => [])
    else []
  base ++ cmdPart ++ dockerPart

/-- The post-execution prompt (agent.py lines 1349-1369). -/
def nextStepPrompt (iteration : Nat) (kind truncated_out environment_block goal : String) :
    String :=
  "Output from step " ++ toString iteration ++ " (" ++ kind ++ "):\n\n" ++ truncated_out ++
    "\n\nCurrent environment:\n" ++ environment_block ++
    "\n\nContinue with the goal: " ++ goal ++ "\n\n" ++ FUNCTIONS_BLOCK ++
    "\n\nYou can:\n1. Execute another step with #SH or #PY\n2. Call a function with #CALL\n3. Finish with #DONE when complete\n"

/-- `process_response(response, goal, task_id)` (agent.py lines 1041-1371).

The branches, in source order: a completion marker anywhere in the uppercased
response; a self-update marker (whose payload is everything after the first
*literal* `#SELFUPDATE`, an `IndexError` — `.raised` — when the marker only
occurs in another casing); function calls; a code block (validated and then
executed); otherwise the `awaiting_code` re-prompt.  The wall-clock duration
passed to `save_history` is not modelled; `Event.saveHistory` records the
other three arguments. -/
def process_response (env : Env) (response goal task_id : String) (st : TaskState) :
    StepResult :=
  let output := st.output
  let iteration := st.step + 1
  if strContains (pyUpper response) "#DONE" then
    let output := output ++ "\n‚úÖ Goal completed successfully."
    { status := "completed", output := output, step := iteration,
      events := [.saveTaskLog "system_task_complete" "Goal completed successfully",
                 .updateTaskStatus "completed",
                 .notify "task_complete" "completed",
                 .saveHistory goal "completed" output],
      control := .done }
  else if strContains (pyUpper response) "#SELFUPDATE" then
    match splitAfterFirst response "#SELFUPDATE" with
    | none =>
      { status := st.status, output := output, step := iteration, events := [],
        control := .raised }
    | some tail =>
      let new_code := pyStrip tail
      let v := validate_code new_code "PY"
      if v.ok then
        match env.ioError with
        | some e =>
          let output := output ++ "\n‚ùå Self-update failed: " ++ e
          { status := st.status, output := output, step := iteration,
            events := [.saveTaskLog "system_error" ("Self-update failed: " ++ e)],
            control := .continueWith (suFailPrompt e goal) }
        | none =>
          let output := output ++ "\nüîÑ Agent self-updated. Backup saved to " ++
            env.backupPath ++ ". Restarting..."
          { status := "restarting", output := output, step := iteration,
            events :=
              (if env.agentSourceExists then [.writeBackup env.backupPath] else []) ++
              [.writeAgentSource new_code,
               .saveTaskLog "system_selfupdate"
                 ("Self-update applied. Backup saved to " ++ env.backupPath),
               .updateTaskStatus "restarting",
               .notify "task_update" "restarting",
               .saveHistory goal "restarting" output,
               .execvRestart],
            control := .restarting }
      else
        let output := output ++ "\n‚ùå Self-update rejected: " ++ v.reason
        { status := st.status, output := output, step := iteration,
          events := [.saveTaskLog "system_selfupdate_rejected"
            ("Self-update rejected: " ++ v.reason)],
          control := .continueWith (suRejPrompt v.reason goal) }
  else
    match extract_functions response with
    | f :: fs =>
      let fr := execute_functions env (f :: fs) task_id
      let output := output ++ "\n--- Function Results (Step " ++ toString iteration ++
        ") ---\n" ++ String.intercalate "\n" fr.1
      if fr.2 > 0 then
        { status := st.status, output := output, step := iteration,
          events := [.notify "task_update" ("Running (step " ++ toString iteration ++ ")")],
          control := .suspend fr.2 }
      else
        { status := st.status, output := output, step := iteration,
          events := [.notify "task_update" ("Running (step " ++ toString iteration ++ ")")],
          control := .continueWith (funcPrompt fr.1 goal) }
    | [] =>
      match extract_code_blocks response with
      | none =>
        let output := output ++
          "\n‚ùå No executable code or function calls detected. Please provide a code block starting with #SH or #PY, or use #CALL to call a function."
        { status := "awaiting_code", output := output, step := iteration,
          events := [.saveTaskLog "system_error" "No executable code or function calls detected"],
          control := .continueWith (noCodePrompt goal) }
      | some kc =>
        let kind := kc.1
        let code := kc.2
        let v := validate_code code kind
        if v.ok then
          let output := output ++ "\n--- Step " ++ toString iteration ++ " (" ++ kind ++
            ") ---\n" ++ code
          let runStatus := "Running (step " ++ toString iteration ++ ")"
          let out := if kind = "PY" then run_py env code else run_sh env code 300
          let output := output ++ "\n--- Output ---\n" ++ out
          let truncated_out :=
            if out.length > 4000 then
              pySliceFirst out 2000 ++ "\n...[output truncated, " ++ toString out.length ++
                " characters total]...\n" ++ pySliceLast out 2000
            else out
          let environment_block := String.intercalate "\n" (envSummary env.envContext)
          { status := runStatus, output := output, step := iteration,
            events := [.updateTaskStatus runStatus,
                       .notify "task_update" runStatus,
                       .saveTaskLog "system_shell_execution"
                         ("Step " ++ toString iteration ++ " (" ++ kind ++ "):\n\n" ++ code),
                       (if kind = "PY" then .runPy code else .runShell code),
                       .saveTaskLog "system_shell_output"
                         ("Step " ++ toString iteration ++ " output:\n\n" ++ out),
                       .updateTaskStatus ("Completed step " ++ toString iteration)],
            control := .continueWith
              (nextStepPrompt iteration kind truncated_out environment_block goal) }
        else
          let output := output ++ "\n‚ùå Code validation failed: " ++ v.reason
          { status := st.status, output := output, step := iteration,
            events := [.saveTaskLog "system_code_validation_failed"
              ("Code validation failed: " ++ v.reason ++ "\n\nCode: " ++ code)],
            control := .continueWith (valFailPrompt v.reason goal) }

/-- `cancel_task` (agent.py lines 1631-1654): marks the task cancelled, logs
and notifies — it calls `save_history` nowhere. -/
def cancel_task (st : TaskState) : TaskState × List Event :=
  ({ st with status := "cancelled" },
   [.updateTaskStatus "cancelled",
    .saveTaskLog "system_task_cancel" "Task cancelled by user",
    .notify "task_update" "cancelled"])

/-! ## Spec-side companion definitions

These follow the wording of the (amended) claims and are compared against
the source-derived functions above. -/

/-- Is an event an invocation of the Execution Adapter? -/
def isExecEvent : Event → Bool
  | .runPy _ => true
  | .runShell _ => true
  | _ => false

/-- Is an event a `save_history` write (one `HistoryRecord`)? -/
def isHistoryWrite : Event → Bool
  | .saveHistory _ _ _ => true
  | _ => false

/-- The prefix of a call batch that actually executes: every call up to and
including the first one whose dispatch suspends (a successfully parsed
`wait`). -/
def takeThroughWait (env : Env) (task_id : String) :
    List (String × String) → List (String × String)
  | [] => []
  | f :: rest =>
    if (dispatch_call env task_id f.1 f.2).2.isSome then [f]
    else f :: takeThroughWait env task_id rest

/-- The suspend duration of a batch: that of its first suspending call, else 0. -/
def batchSuspend (env : Env) (task_id : String) : List (String × String) → Int
  | [] => 0
  | f :: rest =>
    match (dispatch_call env task_id f.1 f.2).2 with
    | some w => w
    | none => batchSuspend env task_id rest

/-! ## Concrete fixtures used by the witness theorems -/

/-- A benign oracle for witness evaluation. -/
def sampleEnv : Env :=
  ⟨fun _ => "file data",
   fun _ _ => .finished "ok" "" 0,
   fun _ => .finished "ok" "" 0,
   fun _ => none,
   [("user", .s "root"), ("is_root", .s "True")],
   true, "/a/agent.py.bak.1700000000", none⟩

/-- An oracle whose subprocess layer always times out. -/
def envTimeoutCase : Env :=
  ⟨fun _ => "", fun _ _ => .timedOut, fun _ => .timedOut, fun _ => none, [],
   false, "", none⟩

/-- An oracle whose subprocess layer finishes normally with output on both
streams. -/
def envMergeCase : Env :=
  ⟨fun _ => "", fun _ _ => .finished "o" "e" 0, fun _ => .finished "o" "e" 0,
   fun _ => none, [], false, "", none⟩

/-- An oracle whose subprocess layer finishes with exit status 2. -/
def envExitCase : Env :=
  ⟨fun _ => "", fun _ _ => .finished "o" "e" 2, fun _ => .finished "o" "e" 2,
   fun _ => none, [], false, "", none⟩

/-- An oracle whose subprocess layer raises. -/
def envRaiseCase : Env :=
  ⟨fun _ => "", fun _ _ => .raised "boom", fun _ => .raised "boom", fun _ => none,
   [], false, "", none⟩

/-- A running task record for witness evaluation. -/
def sampleState : TaskState :=
  ⟨"running", "transcript", 2⟩

/-! ## Helper lemmas -/

/-- Every shared denylist entry carries a nonempty reason. -/
theorem dangerous_reasons_nonempty : ∀ p ∈ dangerous_patterns, p.2 ≠ "" := by
  decide

/-- Every Python-specific denylist entry carries a nonempty reason. -/
theorem py_reasons_nonempty : ∀ p ∈ py_dangerous, p.2 ≠ "" := by
  decide

/-- A dispatch of any function other than `wait` never requests a suspension. -/
theorem dispatch_call_snd_eq_none (env : Env) (task_id name args : String)
    (h : name ≠ "wait") : (dispatch_call env task_id name args).2 = none := by
  simp only [dispatch_call]
  split_ifs <;> first
    | rfl
    | (split <;> rfl)

/-- The eviction loop drops an oldest-first prefix and stops only when the
running estimate has reached 80% of the budget or the history is exhausted. -/
theorem truncateHistory_drop (t : Int) (hist : List Msg) :
    ∃ k, k ≤ hist.length ∧ truncateHistory t hist = hist.drop k ∧
      (k = hist.length ∨
        t - ((hist.take k).map (fun m => ((m.content.length / 4 : Nat) : Int))).sum ≤ 3200) := by
  induction hist generalizing t with
  | nil => exact ⟨0, by simp, rfl, Or.inl rfl⟩
  | cons m rest ih =>
    by_cases h : t > 3200
    · obtain ⟨k, hk, heq, hd⟩ := ih (t - ((m.content.length / 4 : Nat) : Int))
      refine ⟨k + 1, by simpa using hk, ?_, ?_⟩
      · simpa [truncateHistory, h] using heq
      · rcases hd with hd | hd
        · exact Or.inl (by simp [hd])
        · refine Or.inr ?_
          simp only [List.take_succ_cons, List.map_cons, List.sum_cons]
          omega
    · exact ⟨0, Nat.zero_le _, by simp [truncateHistory, h], Or.inr (by simpa using by omega)⟩

/-! ## Claim theorems -/

/-- C1: every model response containing the completion marker anywhere in its
text (case-insensitively, via `response.upper()`) makes `process_response`
take the `Done` branch and mark the task completed, regardless of any
co-occurring self-update marker, function-call markers or code blocks —
the completion check is the first branch taken. -/
theorem done_marker_completes (env : Env) (response goal task_id : String)
    (st : TaskState) (h : strContains (pyUpper response) "#DONE" = true) :
    (process_response env response goal task_id st).control = .done ∧
    (process_response env response goal task_id st).status = "completed" := by
  simp [process_response, h]

/-- C1 witness: a response carrying a lowercase completion marker together
with a self-update marker, a function call and a shell block still completes. -/
theorem done_marker_completes_witness :
    strContains (pyUpper "#SELFUPDATE x\n```#SH\nls\n```\n#CALL wait(5)\n#done") "#DONE" = true ∧
    (process_response sampleEnv "#SELFUPDATE x\n```#SH\nls\n```\n#CALL wait(5)\n#done"
      "g" "100000001" sampleState).control = .done :=
  ⟨by decide,
   (done_marker_completes sampleEnv "#SELFUPDATE x\n```#SH\nls\n```\n#CALL wait(5)\n#done"
      "g" "100000001" sampleState (by decide)).1⟩

/-- C2 counterexample: on a response with no recognizable action the task is
*not* terminated in the failed state and the model call *is* retried — the
status becomes `awaiting_code` and control continues with a corrective
prompt, contradicting the claim. -/
theorem unparseable_keeps_task_alive_cex :
    (process_response sampleEnv "I am not sure what to do." "list temp directory"
        "100000001" sampleState).status = "awaiting_code" ∧
    ¬ (process_response sampleEnv "I am not sure what to do." "list temp directory"
        "100000001" sampleState).status = "failed" ∧
    (process_response sampleEnv "I am not sure what to do." "list temp directory"
        "100000001" sampleState).control =
      .continueWith (noCodePrompt "list temp directory") := by
  refine ⟨by decide, by decide, by decide⟩

/-- C2 (amended): a response with no completion marker, no self-update
marker, no function call and no code block sets the task to `awaiting_code`,
reports the problem in the transcript and the error log, and re-queries the
model with a corrective prompt — the task does not terminate and is not
marked failed. -/
theorem unparseable_reprompts (env : Env) (response goal task_id : String)
    (st : TaskState)
    (h1 : strContains (pyUpper response) "#DONE" = false)
    (h2 : strContains (pyUpper response) "#SELFUPDATE" = false)
    (h3 : extract_functions response = [])
    (h4 : extract_code_blocks response = none) :
    (process_response env response goal task_id st).status = "awaiting_code" ∧
    (process_response env response goal task_id st).output =
      st.output ++ "\n‚ùå No executable code or function calls detected. Please provide a code block starting with #SH or #PY, or use #CALL to call a function." ∧
    (process_response env response goal task_id st).events =
      [.saveTaskLog "system_error" "No executable code or function calls detected"] ∧
    (process_response env response goal task_id st).control =
      .continueWith (noCodePrompt goal) := by
  simp [process_response, h1, h2, h3, h4]

/-- C2 witness for the amended claim at a concrete unparseable response. -/
theorem unparseable_reprompts_witness :
    (process_response sampleEnv "hello world" "g" "100000001" sampleState).status =
      "awaiting_code" ∧
    (process_response sampleEnv "hello world" "g" "100000001" sampleState).control =
      .continueWith (noCodePrompt "g") :=
  ⟨(unparseable_reprompts sampleEnv "hello world" "g" "100000001" sampleState
      (by decide) (by decide) (by decide) (by decide)).1,
   (unparseable_reprompts sampleEnv "hello world" "g" "100000001" sampleState
      (by decide) (by decide) (by decide) (by decide)).2.2.2⟩

/-- C3: `validate_code` rejects empty (or whitespace-only) code, rejects any
code matched by the shared denylist with the first matching pattern's reason
(which is always nonempty), and a response whose extracted code fails
validation never reaches the Execution Adapter — the step's event trace
contains no `runPy`/`runShell` invocation. -/
theorem validator_rejects_and_blocks (code kind : String) (pat : List Atom)
    (reason : String) (env : Env) (response goal task_id : String) (st : TaskState) :
    (pyStrip code = "" → validate_code code kind = ⟨false, "Empty code block", []⟩)
  ∧ (pyStrip code ≠ "" →
      dangerous_patterns.find? (fun p => reSearch p.1 code.data) = some (pat, reason) →
      validate_code code kind = ⟨false, reason, []⟩ ∧ reason ≠ "")
  ∧ (strContains (pyUpper response) "#DONE" = false →
     strContains (pyUpper response) "#SELFUPDATE" = false →
     extract_functions response = [] →
     extract_code_blocks response = some (kind, code) →
     (validate_code code kind).ok = false →
     ∀ ev ∈ (process_response env response goal task_id st).events,
       isExecEvent ev = false) := by
  refine ⟨?_, ?_, ?_⟩
  · intro h
    simp [validate_code, h]
  · intro hne hfind
    refine ⟨by simp [validate_code, hne, hfind], ?_⟩
    exact dangerous_reasons_nonempty _ (List.mem_of_find?_eq_some hfind)
  · intro h1 h2 h3 h4 h5
    simp [process_response, h1, h2, h3, h4, h5, isExecEvent]

/-- C3 witness: whitespace-only code, a recursive root deletion, and a shell
response carrying it, each handled as the theorem states. -/
theorem validator_rejects_and_blocks_witness :
    validate_code "   " "SH" = ⟨false, "Empty code block", []⟩ ∧
    validate_code "rm -rf /" "SH" =
      ⟨false, "Dangerous recursive deletion of root directory", []⟩ ∧
    (∀ ev ∈ (process_response sampleEnv "#SH\nrm -rf /" "g" "100000001" sampleState).events,
      isExecEvent ev = false) :=
  ⟨(validator_rejects_and_blocks "   " "SH" [] "" sampleEnv "" "" "" sampleState).1
      (by decide),
   ((validator_rejects_and_blocks "rm -rf /" "SH"
       [.lit "rm", .wsPlus, .lit "-rf", .wsPlus, .lit "/"]
       "Dangerous recursive deletion of root directory" sampleEnv "" "" "" sampleState).2.1
      (by decide) (by decide)).1,
   (validator_rejects_and_blocks "rm -rf /" "SH" [] "" sampleEnv "#SH\nrm -rf /" "g"
       "100000001" sampleState).2.2
      (by decide) (by decide) (by decide) (by decide) (by decide)⟩

/-- C4: a `wait(n)` call whose argument parses as an integer yields the
suspend duration `min(n, 60)` (and says so in its result); a non-parsing
argument yields the error result with suspend duration 0; and a batch
containing no `wait` call never returns a nonzero suspend duration. -/
theorem wait_suspend_spec (env : Env) (task_id args : String) (n : Int)
    (fs : List (String × String)) :
    (pythonInt (stripArgs args) = some n →
      execute_functions env [("wait", args)] task_id =
        (["Waiting for " ++ toString (min n 60) ++ " seconds..."], min n 60))
  ∧ (pythonInt (stripArgs args) = none →
      execute_functions env [("wait", args)] task_id =
        (["Invalid wait duration: " ++ args ++ ". Please provide a number of seconds."], 0))
  ∧ ((∀ f ∈ fs, f.1 ≠ "wait") → (execute_functions env fs task_id).2 = 0) := by
  refine ⟨?_, ?_, ?_⟩
  · intro h
    simp [execute_functions, dispatch_call, h]
  · intro h
    simp [execute_functions, dispatch_call, h]
  · intro h
    induction fs with
    | nil => rfl
    | cons f rest ih =>
      have hf := dispatch_call_snd_eq_none env task_id f.1 f.2 (h f (by simp))
      cases hd : dispatch_call env task_id f.1 f.2 with
      | mk r w =>
        rw [hd] at hf
        subst hf
        simp only [execute_functions, hd]
        exact ih (fun g hg => h g (by simp [hg]))

/-- C4 witness: `wait(500)` is clamped to 60, `wait(abc)` errors with
suspend 0, and a wait-free batch suspends 0 seconds. -/
theorem wait_suspend_spec_witness :
    execute_functions sampleEnv [("wait", "500")] "100000001" =
      (["Waiting for 60 seconds..."], 60) ∧
    execute_functions sampleEnv [("wait", "abc")] "100000001" =
      (["Invalid wait duration: abc. Please provide a number of seconds."], 0) ∧
    (execute_functions sampleEnv [("check_status", ""), ("get_environment", "")]
        "100000001").2 = 0 :=
  ⟨by
    have := (wait_suspend_spec sampleEnv "100000001" "500" 500
      [("check_status", ""), ("get_environment", "")]).1 (by decide)
    simpa using this,
   (wait_suspend_spec sampleEnv "100000001" "abc" 0
      [("check_status", ""), ("get_environment", "")]).2.1 (by decide),
   (wait_suspend_spec sampleEnv "100000001" "abc" 0
      [("check_status", ""), ("get_environment", "")]).2.2 (by decide)⟩

/-- C5 counterexample: a successfully parsed `wait` call returns the batch
early, so a call occurring after it produces no result — the dispatcher does
*not* produce a result string for every call of the batch. -/
theorem wait_truncates_batch_cex :
    (execute_functions sampleEnv [("wait", "5"), ("check_command", "ls")]
        "100000001").1 = ["Waiting for 5 seconds..."] ∧
    ¬ (execute_functions sampleEnv [("wait", "5"), ("check_command", "ls")]
        "100000001").1.length =
      [("wait", "5"), ("check_command", "ls")].length := by
  refine ⟨by decide, by decide⟩

/-- C5 (amended): dispatch results are order-preserving with respect to the
parsed call order, but only the prefix up to and including the first
successfully parsed `wait` call executes: each call of that prefix yields
exactly one result, in order, and the batch's suspend duration is that of
the cutting `wait` (0 if none). -/
theorem dispatch_results_spec (env : Env) (task_id : String)
    (fs : List (String × String)) :
    execute_functions env fs task_id =
      ((takeThroughWait env task_id fs).map
         (fun f => (dispatch_call env task_id f.1 f.2).1),
       batchSuspend env task_id fs) := by
  induction fs with
  | nil => rfl
  | cons f rest ih =>
    cases hd : dispatch_call env task_id f.1 f.2 with
    | mk r w =>
      cases w with
      | some wt => simp [execute_functions, takeThroughWait, batchSuspend, hd]
      | none => simp [execute_functions, takeThroughWait, batchSuspend, hd, ih]

/-- C6 counterexample: with an empty history and a 16005-character prompt,
the combined history-plus-prompt estimate (16005 / 4 = 4001 tokens) exceeds
the 4000-token budget, yet no truncation happens and no truncation notice is
present — the code triggers truncation on the *history-only* estimate, so
the claim's trigger condition is wrong. -/
theorem context_trigger_cex :
    historyEstimate [] +
        ((((String.mk (List.replicate 16005 'a')).length / 4 : Nat) : Int)) >
      (MAX_CONTEXT : Int) ∧
    ollama_chat_messages [] (String.mk (List.replicate 16005 'a')) =
      [⟨"system", system_content⟩, ⟨"user", String.mk (List.replicate 16005 'a')⟩] ∧
    truncationNotice ∉ ollama_chat_messages [] (String.mk (List.replicate 16005 'a')) := by
  have hlen : (String.mk (List.replicate 16005 'a')).length = 16005 := by
    show (List.replicate 16005 'a').length = 16005
    exact List.length_replicate 16005 'a'
  have h2 : ollama_chat_messages [] (String.mk (List.replicate 16005 'a')) =
      [⟨"system", system_content⟩, ⟨"user", String.mk (List.replicate 16005 'a')⟩] := by
    have hno : ¬ historyEstimate [] > (MAX_CONTEXT : Int) := by decide
    simp only [ollama_chat_messages, if_neg hno]
    rfl
  refine ⟨?_, h2, ?_⟩
  · rw [hlen]
    have h0 : historyEstimate [] = 0 := rfl
    rw [h0]
    decide
  · rw [h2]
    intro hmem
    rcases List.mem_cons.mp hmem with h | h
    · exact absurd (congrArg Msg.content h) (by decide)
    · rcases List.mem_cons.mp h with h | h
      · exact absurd (congrArg Msg.role h) (by decide)
      · exact List.not_mem_nil _ h

/-- C6 (amended): context truncation is triggered by the history-only
estimate (total character length of the history divided by 4) exceeding the
budget — the new prompt is not counted.  When triggered, entries are removed
from the oldest end until the loop's running estimate is at most 80% of the
budget or the history is exhausted, and the truncation notice is prepended
as the oldest history entry (directly after the fixed system message).  The
new prompt is always the final message, never truncated or dropped. -/
theorem context_assembly_spec (history : List Msg) (prompt : String) :
    (historyEstimate history ≤ (MAX_CONTEXT : Int) →
      ollama_chat_messages history prompt =
        ⟨"system", system_content⟩ :: (history ++ [⟨"user", prompt⟩]))
  ∧ (historyEstimate history > (MAX_CONTEXT : Int) →
      ∃ k, k ≤ history.length ∧
        ollama_chat_messages history prompt =
          ⟨"system", system_content⟩ :: truncationNotice ::
            (history.drop k ++ [⟨"user", prompt⟩]) ∧
        (k = history.length ∨
          historyEstimate history -
            ((history.take k).map (fun m => ((m.content.length / 4 : Nat) : Int))).sum ≤
            3200))
  ∧ (ollama_chat_messages history prompt).getLast? = some ⟨"user", prompt⟩ := by
  refine ⟨?_, ?_, ?_⟩
  · intro h
    have hnot : ¬ historyEstimate history > (MAX_CONTEXT : Int) := not_lt.mpr h
    simp [ollama_chat_messages, hnot]
  · intro h
    obtain ⟨k, hk, heq, hd⟩ := truncateHistory_drop (historyEstimate history) history
    refine ⟨k, hk, ?_, hd⟩
    simp [ollama_chat_messages, h, heq]
  · by_cases h : historyEstimate history > (MAX_CONTEXT : Int)
    · obtain ⟨k, _, heq, _⟩ := truncateHistory_drop (historyEstimate history) history
      simp only [ollama_chat_messages, if_pos h, heq]
      exact List.getLast?_concat _
    · simp only [ollama_chat_messages, if_neg h]
      exact List.getLast?_concat _

/-- C6 witness for the amended claim: a small history is passed through
untouched, with the prompt appended last. -/
theorem context_assembly_spec_witness :
    ollama_chat_messages [⟨"user", "hi"⟩] "ok" =
      [⟨"system", system_content⟩, ⟨"user", "hi"⟩, ⟨"user", "ok"⟩] := by
  have := (context_assembly_spec [⟨"user", "hi"⟩] "ok").1 (by decide)
  simpa using this

/-- C7: a self-update whose candidate source fails validation is rejected:
the step continues with a prompt that carries the rejection reason, the
event trace contains no backup write, no source write and no process
restart, and the task's status is unchanged (it keeps running with ordinary
actions). -/
theorem selfupdate_rejection_spec (env : Env) (response goal task_id rest : String)
    (st : TaskState)
    (h1 : strContains (pyUpper response) "#DONE" = false)
    (h2 : strContains (pyUpper response) "#SELFUPDATE" = true)
    (h3 : splitAfterFirst response "#SELFUPDATE" = some rest)
    (h4 : (validate_code (pyStrip rest) "PY").ok = false) :
    (process_response env response goal task_id st).control =
      .continueWith (suRejPrompt (validate_code (pyStrip rest) "PY").reason goal) ∧
    (process_response env response goal task_id st).events =
      [.saveTaskLog "system_selfupdate_rejected"
        ("Self-update rejected: " ++ (validate_code (pyStrip rest) "PY").reason)] ∧
    (∀ ev ∈ (process_response env response goal task_id st).events,
      (∀ p, ev ≠ .writeBackup p) ∧ (∀ c, ev ≠ .writeAgentSource c) ∧
        ev ≠ .execvRestart) ∧
    (process_response env response goal task_id st).status = st.status := by
  simp [process_response, h1, h2, h3, h4]

/-- C7 witness: a self-update payload containing a recursive root deletion
is rejected and the loop continues with the reason in the next prompt. -/
theorem selfupdate_rejection_spec_witness :
    (process_response sampleEnv "#SELFUPDATE\nrm -rf /" "g" "100000001"
        sampleState).control =
      .continueWith (suRejPrompt "Dangerous recursive deletion of root directory" "g") := by
  have := (selfupdate_rejection_spec sampleEnv "#SELFUPDATE\nrm -rf /" "g" "100000001"
    "\nrm -rf /" sampleState (by decide) (by decide) (by decide) (by decide)).1
  exact this

/-- C8: the Execution Adapter always returns a textual result: a nonzero
exit status is annotated with an `[Exit code: n]` prefix over the merged
stdout+stderr stream rather than raised; a timeout yields a distinct
timeout-error string instead of hanging; any other exception is returned as
an `ERROR:` string; and `run_py` surfaces a timeout of the materialized
script the same way. -/
theorem execution_adapter_spec (env : Env) (cmd : String) (t : Nat)
    (stdout stderr : String) (rc : Int) (e : String) (code : String) :
    (env.shExec (clean_code cmd) t = .finished stdout stderr rc → rc = 0 →
      run_sh env cmd t = mergeStreams stdout stderr)
  ∧ (env.shExec (clean_code cmd) t = .finished stdout stderr rc → rc ≠ 0 →
      run_sh env cmd t = "[Exit code: " ++ toString rc ++ "]\n" ++ mergeStreams stdout stderr)
  ∧ (env.shExec (clean_code cmd) t = .timedOut →
      run_sh env cmd t = "ERROR: Command timed out after " ++ toString t ++ " seconds")
  ∧ (env.shExec (clean_code cmd) t = .raised e →
      run_sh env cmd t = "ERROR: " ++ e)
  ∧ (env.pyExec (clean_code code) = .timedOut →
      run_py env code = "ERROR: Command timed out after 300 seconds") := by
  refine ⟨?_, ?_, ?_, ?_, ?_⟩
  · intro h hrc
    simp [run_sh, shapeOutcome, h, hrc]
  · intro h hrc
    simp [run_sh, shapeOutcome, h, hrc]
  · intro h
    simp [run_sh, shapeOutcome, h]
  · intro h
    simp [run_sh, shapeOutcome, h]
  · intro h
    have hval : shapeOutcome (env.pyExec (clean_code code)) 300 =
        "ERROR: Command timed out after 300 seconds" := by
      rw [h]
      rfl
    have hcond : (strContains "ERROR: Command timed out after 300 seconds"
          "SyntaxError: invalid syntax" &&
        (strContains "ERROR: Command timed out after 300 seconds" "```" ||
         strContains "ERROR: Command timed out after 300 seconds" "`")) = false := by
      decide
    simp only [run_py]
    rw [hval, hcond]
    simp

/-- C8 witness: concrete oracles exercising the nonzero-exit, timeout,
exception and Python-timeout conclusions. -/
theorem execution_adapter_spec_witness :
    run_sh envMergeCase "ls" 300 = "o\ne" ∧
    run_sh envExitCase "ls" 300 = "[Exit code: 2]\no\ne" ∧
    run_sh envTimeoutCase "ls" 300 = "ERROR: Command timed out after 300 seconds" ∧
    run_sh envRaiseCase "ls" 300 = "ERROR: boom" ∧
    run_py envTimeoutCase "print(1)" = "ERROR: Command timed out after 300 seconds" :=
  ⟨((execution_adapter_spec envMergeCase "ls" 300 "o" "e" 0 "boom" "print(1)").1
      rfl rfl).trans (by decide),
   ((execution_adapter_spec envExitCase "ls" 300 "o" "e" 2 "boom" "print(1)").2.1
      rfl (by decide)).trans (by decide),
   (execution_adapter_spec envTimeoutCase "ls" 300 "o" "e" 2 "boom" "print(1)").2.2.1 rfl,
   (execution_adapter_spec envRaiseCase "ls" 300 "o" "e" 2 "boom" "print(1)").2.2.2.1 rfl,
   (execution_adapter_spec envTimeoutCase "ls" 300 "o" "e" 2 "boom"
      "print(1)").2.2.2.2 rfl⟩

/-- C9 counterexample: cancellation reaches the terminal `cancelled` status
but writes no `HistoryRecord` — `cancel_task` never calls `save_history`,
contradicting the claim that every terminal state writes exactly one. -/
theorem cancel_writes_no_history_cex :
    (cancel_task ⟨"running", "transcript", 3⟩).1.status = "cancelled" ∧
    (cancel_task ⟨"running", "transcript", 3⟩).2.filter isHistoryWrite = [] := by
  exact ⟨rfl, rfl⟩

/-- C9 (amended): exactly one `HistoryRecord` is written when a task
terminates through the completion branch (`completed`) or an accepted
self-update (`restarting`); a cancelled task writes none. -/
theorem history_write_spec (env : Env) (response goal task_id rest : String)
    (st : TaskState) :
    (strContains (pyUpper response) "#DONE" = true →
      ((process_response env response goal task_id st).events.filter
        isHistoryWrite).length = 1)
  ∧ (strContains (pyUpper response) "#DONE" = false →
     strContains (pyUpper response) "#SELFUPDATE" = true →
     splitAfterFirst response "#SELFUPDATE" = some rest →
     (validate_code (pyStrip rest) "PY").ok = true →
     env.ioError = none →
      ((process_response env response goal task_id st).events.filter
        isHistoryWrite).length = 1 ∧
      Event.execvRestart ∈ (process_response env response goal task_id st).events)
  ∧ ((cancel_task st).2.filter isHistoryWrite).length = 0 := by
  refine ⟨?_, ?_, ?_⟩
  · intro h
    simp [process_response, h, isHistoryWrite]
  · intro h1 h2 h3 h4 h5
    cases hb : env.agentSourceExists <;>
      simp [process_response, h1, h2, h3, h4, h5, hb, isHistoryWrite]
  · rfl

/-- C9 witness: a completion response and an accepted self-update each write
exactly one history record. -/
theorem history_write_spec_witness :
    ((process_response sampleEnv "#DONE" "g" "100000001" sampleState).events.filter
      isHistoryWrite).length = 1 ∧
    ((process_response sampleEnv "#SELFUPDATE\nprint(1)" "g" "100000001"
        sampleState).events.filter isHistoryWrite).length = 1 :=
  ⟨(history_write_spec sampleEnv "#DONE" "g" "100000001" "" sampleState).1 (by decide),
   ((history_write_spec sampleEnv "#SELFUPDATE\nprint(1)" "g" "100000001" "\nprint(1)"
      sampleState).2.1 (by decide) (by decide) (by decide) (by decide) rfl).1⟩

/-- C10: under `Script` ("PY") validation the three Python-specific patterns
are rejected with their (nonempty) reasons once the shared denylist does not
fire; merely importing `subprocess` is accepted with only a logged warning;
and under `Shell` ("SH") validation a word-bounded use of `shred`, `fdisk`,
`mkfs` or `sfdisk` that escapes the shared denylist (impossible for `mkfs`,
whose bare name is itself a shared pattern) is accepted with only a logged
warning. -/
theorem py_specific_validation_spec (code : String) (pat : List Atom)
    (reason : String) :
    (pyStrip code ≠ "" →
     dangerous_patterns.find? (fun p => reSearch p.1 code.data) = none →
     py_dangerous.find? (fun p => reSearch p.1 code.data) = some (pat, reason) →
     validate_code code "PY" = ⟨false, reason, []⟩ ∧ reason ≠ "")
  ∧ (pyStrip code ≠ "" →
     dangerous_patterns.find? (fun p => reSearch p.1 code.data) = none →
     py_dangerous.find? (fun p => reSearch p.1 code.data) = none →
     importMention "subprocess" code = true →
     validate_code code "PY" =
       ⟨true, "Code passed validation",
        ["Warning: Code contains potentially security-sensitive module: subprocess"]⟩)
  ∧ (∀ u ∈ dangerous_utils,
     pyStrip code ≠ "" →
     dangerous_patterns.find? (fun p => reSearch p.1 code.data) = none →
     wordBounded u code = true →
     (validate_code code "SH").ok = true ∧
     ("Warning: Shell code contains potentially destructive utility: " ++ u) ∈
       (validate_code code "SH").warnings) := by
  refine ⟨?_, ?_, ?_⟩
  · intro hne hshared hpy
    exact ⟨by simp [validate_code, hne, hshared, hpy],
           py_reasons_nonempty _ (List.mem_of_find?_eq_some hpy)⟩
  · intro hne hshared hpy himp
    simp [validate_code, hne, hshared, hpy, dangerous_imports, himp]
  · intro u hu hne hshared hw
    refine ⟨by simp [validate_code, hne, hshared], ?_⟩
    simp only [validate_code, if_neg hne, hshared]
    exact List.mem_map_of_mem _ (List.mem_filter.mpr ⟨hu, hw⟩)

/-- C10 witness: `exec(input())` is rejected, `import subprocess` and
`shred -u f` are accepted with the corresponding warnings. -/
theorem py_specific_validation_spec_witness :
    validate_code "exec(input())" "PY" = ⟨false, "Executing user input", []⟩ ∧
    validate_code "import subprocess" "PY" =
      ⟨true, "Code passed validation",
       ["Warning: Code contains potentially security-sensitive module: subprocess"]⟩ ∧
    (validate_code "shred -u f" "SH").ok = true ∧
    ("Warning: Shell code contains potentially destructive utility: " ++ "shred") ∈
      (validate_code "shred -u f" "SH").warnings :=
  ⟨((py_specific_validation_spec "exec(input())"
      [.lit "exec", .wsStar, .lit "(", .anyStar, .lit "input"] "Executing user input").1
      (by decide) (by decide) (by decide)).1,
   (py_specific_validation_spec "import subprocess" [] "").2.1
      (by decide) (by decide) (by decide) (by decide),
   ((py_specific_validation_spec "shred -u f" [] "").2.2 "shred" (by decide)
      (by decide) (by decide) (by decide)).1,
   ((py_specific_validation_spec "shred -u f" [] "").2.2 "shred" (by decide)
      (by decide) (by decide) (by decide)).2⟩

end Prime
